import Mathlib

set_option maxRecDepth 40000

/-!
Verification of the image-generation component of the Mail_Generator
repository (`image_generator.py`).

The shallow embedding below translates the source file directly:

* `construct_image_prompt` is the pure prompt builder (lines 35-147 of
  `image_generator.py`): an f-string header, a specialty lookup table, a
  style lookup table, an optional text-overlay block, a fixed footer, and a
  final Python `str.strip()` (modelled by `pyStrip`).
* `generate_survey_image`, `try_new_gemini_api` and
  `generate_fallback_image` (lines 149-267) are stateful: the ambient
  process state (availability flags, the outcome of the one remote call,
  whether the fallback drawing/saving raises, and the wall clock read by
  `datetime.datetime.now()`) is passed explicitly as a `World` value.
  Each Python `try`/`except` is modelled by a body returning
  `Except String _` (the `String` is Python's `str(e)`) together with the
  handler that converts the error into the returned tuple.
* External collaborators (PIL bitmaps, PNG encoding, base64) are modelled
  abstractly but concretely: `PilImage` is an abstract record and
  `pngBase64` a fixed injective encoding, since no claim constrains their
  internals, only their presence in the result.

Python's `str.isalnum`, `str.lower` and whitespace are modelled with
Lean's ASCII `Char.isAlphanum`, `String.toLower` and `Char.isWhitespace`;
all string constants of the source are ASCII, where the two agree.
-/

/-- First literal chunk of the f-string `base_prompt` (source line 36-37). -/
def hdr1 : String := "\nCreate a high-quality, professional medical survey campaign image EXCLUSIVELY for healthcare professionals, focusing on "

/-- Literal between the first `{medical_specialty}` and `{survey_name}`. -/
def hdr2 : String := " specialty.\n\nCAMPAIGN DETAILS:\n- Survey Focus: "

/-- Literal between `{survey_name}` and the second `{medical_specialty}`. -/
def hdr3 : String := "\n- Target Specialty: "

/-- Literal between the second `{medical_specialty}` and `{tone}`. -/
def hdr4 : String := " (PRIORITIZE MEDICAL RELEVANCE)\n- Visual Tone: "

/-- Literal between `{tone}` and `{image_style}`. -/
def hdr5 : String := "\n- Style: "

/-- Literal between `{image_style}` and the third `{medical_specialty}`. -/
def hdr6 : String := " (MANDATORY)\n\nVISUAL REQUIREMENTS:\n- Dimensions: 16:9 landscape format, suitable for email headers and web banners\n- Resolution: High-resolution, crisp and clear\n- Color scheme: Professional medical colors (blues, teals, whites, subtle accent colors)\n- MUST INCLUDE medical imagery specific to "

/-- Literal closing the f-string `base_prompt` (source line 50-51). -/
def hdr7 : String := "\n- Clean, uncluttered design with plenty of white space\n"

/-- The visual-elements string registered for the "general" specialty
(source line 64), which is also the default of the dictionary lookup
`specialty_elements.get(medical_specialty.lower(), specialty_elements["general"])`. -/
def general_visual : String := "universal medical symbols, healthcare collaboration imagery, medical professionalism"

/-- The `specialty_elements` dictionary (source lines 53-65), in source order. -/
def specialty_elements : List (String × String) :=
  [("cardiology", "subtle heart imagery, ECG patterns, stethoscope elements, cardiovascular icons"),
   ("oncology", "cellular imagery, research lab elements, microscope motifs, hope and healing themes"),
   ("primary_care", "diverse patient care imagery, family medicine elements, community health themes"),
   ("neurology", "brain imagery, neural networks, neurological examination tools"),
   ("pediatrics", "child-friendly colors, pediatric care elements, family-centered themes"),
   ("psychiatry", "mental health awareness imagery, brain and mind connection themes"),
   ("emergency_medicine", "urgent care elements, emergency room themes, critical care imagery"),
   ("surgery", "surgical precision imagery, OR themes, medical precision elements"),
   ("radiology", "imaging equipment, scan imagery, diagnostic themes"),
   ("pharmacy", "pharmaceutical elements, medication management themes"),
   ("general", general_visual)]

/-- Literal prefix of the specialty-elements line (source line 68). -/
def specialtyLead : String := "\n- Specialty Elements: MANDATORY INCLUSION of "

/-- The "professional" style block (source lines 71-79); also the default of
`style_instructions.get(image_style.lower(), style_instructions["professional"])`. -/
def professionalBlock : String := "\nPROFESSIONAL STYLE:\n- Clean, corporate medical aesthetic\n- Subtle gradients and professional typography\n- Medical professionals in business attire\n- Hospital or clinic environment backgrounds\n- Sophisticated color palette with medical blues and whites\n- Icons and symbols MUST BE minimal and elegant\n"

/-- The "infographic" style block (source lines 80-88).  It is a plain
string literal in the source, not an f-string, so `\x7bmedical_specialty\x7d`
appears verbatim. -/
def infographicBlock : String := "\nINFOGRAPHIC STYLE:\n- Data visualization elements (charts, graphs, statistics) related to \x7bmedical_specialty\x7d\n- Clear information hierarchy\n- Iconography representing survey benefits in a medical context\n- Step-by-step visual flow\n- Bold, readable typography\n- Engaging data presentation elements\n"

/-- The "medical_illustration" style block (source lines 89-97), again a
plain literal with the unsubstituted placeholder. -/
def medicalIllustrationBlock : String := "\nMEDICAL ILLUSTRATION STYLE:\n- Detailed medical diagrams and anatomical elements specific to \x7bmedical_specialty\x7d\n- Scientific accuracy in medical representations\n- Educational poster aesthetic\n- Medical textbook illustration quality\n- Precise, technical visual elements\n- Professional medical publication style\n"

/-- The "clean_modern" style block (source lines 98-106), again a plain
literal with the unsubstituted placeholder. -/
def cleanModernBlock : String := "\nCLEAN MODERN STYLE:\n- Minimalist design with lots of white space\n- Modern typography and clean lines\n- Subtle shadows and depth\n- Contemporary medical technology elements related to \x7bmedical_specialty\x7d\n- Fresh, approachable color palette\n- Modern healthcare facility aesthetics\n"

/-- The `style_instructions` dictionary (source lines 70-107), in source order. -/
def style_instructions : List (String × String) :=
  [("professional", professionalBlock),
   ("infographic", infographicBlock),
   ("medical_illustration", medicalIllustrationBlock),
   ("clean_modern", cleanModernBlock)]

/-- Literal prefix of the text-overlay block, up to the opening quote of the
interpolated survey name (source lines 112-115). -/
def overlayPre : String := "\n\nTEXT OVERLAY REQUIREMENTS:\n- Main headline: \""

/-- Literal suffix of the text-overlay block, from the closing quote of the
interpolated survey name to its end (source lines 115-121). -/
def overlayPost : String := "\" (prominent, readable typography)\n- Subtitle: \"Healthcare Professional Survey\" or \"Medical Research Study\"\n- Call-to-action element: \"Share Your Expertise\" or \"Join the Research\"\n- Text must be easily readable against the background\n- Use professional, medical-appropriate fonts\n- Ensure text contrast meets accessibility standards\n"

/-- The no-text directive appended when `include_text` is false (source line 123). -/
def noTextDirective : String := "\n- Create image without text overlay (background/template only)"

/-- The fixed composition/technical footer (source lines 125-145).  It is a
plain string literal in the source, so both occurrences of
`\x7bmedical_specialty\x7d` appear verbatim, unsubstituted. -/
def footerLit : String := "\n\nCOMPOSITION GUIDELINES:\n- Center-weighted composition with clear focal point\n- Balance between imagery and negative space\n- Professional lighting and color temperature\n- Avoid overly complex or busy designs\n- Ensure scalability from large banners to small email thumbnails\n- Create a sense of trust, expertise, and medical authority\n- Make it appealing to busy healthcare professionals\n- Include SUBTLE ELEMENTS that suggest collaboration and knowledge sharing in a \x7bmedical_specialty\x7d context\n\nTECHNICAL SPECIFICATIONS:\n- High contrast for readability\n- Professional color grading\n- Sharp, crisp details\n- Suitable for both digital and print applications\n- Optimized for professional medical communications\n\nDO NOT generate generic or non-medical images. Focus SOLELY on \x7bmedical_specialty\x7d-related medical imagery.\n"

/-- Python's `str.lower()`, modelled per character (all table keys are ASCII). -/
def pyLower (s : String) : String := ⟨s.data.map Char.toLower⟩

/-- Strip trailing whitespace from a character list, as Python's `rstrip()`. -/
def rstripChars (l : List Char) : List Char :=
  (l.reverse.dropWhile Char.isWhitespace).reverse

/-- Python's `str.strip()`: remove leading and trailing whitespace. -/
def pyStrip (s : String) : String :=
  ⟨rstripChars (s.data.dropWhile Char.isWhitespace)⟩

/-- A concrete date-time as delivered by `datetime.datetime.now()`: the
formatted fields down to seconds, plus the microsecond field that
`strftime("%Y%m%d_%H%M%S")` discards. -/
structure Timestamp where
  year : Nat
  month : Nat
  day : Nat
  hour : Nat
  minute : Nat
  second : Nat
  micro : Nat
deriving Repr, DecidableEq

/-- Zero-pad to two digits, as `strftime`'s `%m`, `%d`, `%H`, `%M`, `%S`. -/
def pad2 (k : Nat) : String := if k < 10 then "0" ++ toString k else toString k

/-- Zero-pad to four digits, as `strftime`'s `%Y`. -/
def pad4 (k : Nat) : String :=
  if k < 10 then "000" ++ toString k
  else if k < 100 then "00" ++ toString k
  else if k < 1000 then "0" ++ toString k
  else toString k

/-- `datetime.datetime.now().strftime("%Y%m%d_%H%M%S")` (source lines 185, 246):
note that the microsecond field is not rendered. -/
def tsString (t : Timestamp) : String :=
  pad4 t.year ++ pad2 t.month ++ pad2 t.day ++ "_" ++
    pad2 t.hour ++ pad2 t.minute ++ pad2 t.second

/-- An in-memory PIL bitmap, abstractly: its size and an identifying tag.
No claim depends on pixel contents. -/
structure PilImage where
  width : Nat
  height : Nat
  tag : String
deriving Repr, DecidableEq

/-- Abstract but concrete model of PNG-encoding a bitmap in memory and
base64-encoding the bytes (source lines 192-194, 255-257). -/
def pngBase64 (img : PilImage) : String :=
  "pngb64:" ++ toString img.width ++ "x" ++ toString img.height ++ ":" ++ img.tag

/-- Outcome of the single remote Gemini call inside the `try` block of
`_try_new_gemini_api`: either some exception is raised (anywhere in the
body; `msg` is Python's `str(e)`), or a response arrives whose candidate
parts each carry `inline_data` (`some` bitmap) or not (`none`). -/
inductive PrimaryOutcome where
  | raises (msg : String)
  | returns (parts : List (Option PilImage))
deriving Repr, DecidableEq

/-- The ambient process state read by `generate_survey_image` and its two
helpers: the import-time flags `GEMINI_AVAILABLE` and `client is not None`
(source lines 15-33, 157, 168), the outcome of the remote call, whether the
fallback body raises (`some` carries `str(e)`), and the wall clock. -/
structure World where
  geminiAvailable : Bool
  clientSome : Bool
  primary : PrimaryOutcome
  fallbackErr : Option String
  now : Timestamp
deriving Repr, DecidableEq

/-- `construct_image_prompt` (source lines 35-147), translated clause by
clause.  The `World` parameter makes the ambient state an explicit input —
the body never consults it, which is exactly what claim C9 (purity, no
timestamp leakage) asserts. -/
def construct_image_prompt (w : World) (survey_name medical_specialty tone image_style : String)
    (include_text : Bool) : String :=
  let base1 := hdr1 ++ medical_specialty ++ hdr2 ++ survey_name ++ hdr3 ++ medical_specialty ++
    hdr4 ++ tone ++ hdr5 ++ image_style ++ hdr6 ++ medical_specialty ++ hdr7
  let specialty_visual := (specialty_elements.lookup (pyLower medical_specialty)).getD general_visual
  let base2 := base1 ++ (specialtyLead ++ specialty_visual)
  let base3 := base2 ++ (style_instructions.lookup (pyLower image_style)).getD professionalBlock
  let base4 := if include_text then base3 ++ (overlayPre ++ survey_name ++ overlayPost)
    else base3 ++ noTextDirective
  pyStrip (base4 ++ footerLit)

/-- The effect of `include_text` (source lines 111-123): the overlay block
or the no-text directive. -/
def textBlock (include_text : Bool) (survey_name : String) : String :=
  if include_text then overlayPre ++ survey_name ++ overlayPost else noTextDirective

/-- Containment of one string in another, at the character level. -/
def strContains (hay needle : String) : Prop := needle.data <:+: hay.data

instance (hay needle : String) : Decidable (strContains hay needle) :=
  List.decidableInfix needle.data hay.data

/-- Boolean version of `strContains`, for stating non-containment facts. -/
def strContainsB (hay needle : String) : Bool := decide (strContains hay needle)

lemma dropWhile_append_left {α} (p : α → Bool) {l1 : List α} (l2 : List α)
    (h : l1.dropWhile p ≠ []) :
    (l1 ++ l2).dropWhile p = l1.dropWhile p ++ l2 := by
  rw [List.dropWhile_append]
  simp [List.isEmpty_iff, h]

lemma rstripChars_append {l1 l2 : List Char} (h : rstripChars l2 ≠ []) :
    rstripChars (l1 ++ l2) = l1 ++ rstripChars l2 := by
  have h2 : l2.reverse.dropWhile Char.isWhitespace ≠ [] := by
    intro hc
    exact h (by simp [rstripChars, hc])
  unfold rstripChars
  rw [List.reverse_append, dropWhile_append_left _ _ h2, List.reverse_append,
    List.reverse_reverse]

lemma hdr1_dropWhile_ne_nil : hdr1.data.dropWhile Char.isWhitespace ≠ [] := by decide

lemma footer_rstrip_ne_nil : rstripChars footerLit.data ≠ [] := by decide

lemma pyStrip_sandwich (mid : List Char) :
    (pyStrip ⟨hdr1.data ++ mid ++ footerLit.data⟩).data =
      hdr1.data.dropWhile Char.isWhitespace ++ mid ++ rstripChars footerLit.data := by
  show rstripChars ((hdr1.data ++ mid ++ footerLit.data).dropWhile Char.isWhitespace) = _
  rw [List.append_assoc, dropWhile_append_left _ _ hdr1_dropWhile_ne_nil,
    ← List.append_assoc, rstripChars_append footer_rstrip_ne_nil, List.append_assoc]

/-- Closed form of `construct_image_prompt`: the final `strip()` only
removes the leading newline of `hdr1` and the trailing newline of
`footerLit`; everything in between survives verbatim. -/
lemma construct_image_prompt_data (w : World) (n sp t st : String) (it : Bool) :
    (construct_image_prompt w n sp t st it).data =
      hdr1.data.dropWhile Char.isWhitespace ++ (sp.data ++ hdr2.data ++ n.data ++ hdr3.data ++
        sp.data ++ hdr4.data ++ t.data ++ hdr5.data ++ st.data ++ hdr6.data ++ sp.data ++
        hdr7.data ++ specialtyLead.data ++
        ((specialty_elements.lookup (pyLower sp)).getD general_visual).data ++
        ((style_instructions.lookup (pyLower st)).getD professionalBlock).data ++
        (textBlock it n).data) ++ rstripChars footerLit.data := by
  have hmk : construct_image_prompt w n sp t st it =
      pyStrip ⟨hdr1.data ++ (sp.data ++ hdr2.data ++ n.data ++ hdr3.data ++
        sp.data ++ hdr4.data ++ t.data ++ hdr5.data ++ st.data ++ hdr6.data ++ sp.data ++
        hdr7.data ++ specialtyLead.data ++
        ((specialty_elements.lookup (pyLower sp)).getD general_visual).data ++
        ((style_instructions.lookup (pyLower st)).getD professionalBlock).data ++
        (textBlock it n).data) ++ footerLit.data⟩ := by
    unfold construct_image_prompt
    apply congrArg pyStrip
    apply String.ext
    cases it <;> simp [textBlock, String.data_append, List.append_assoc]
  rw [hmk, pyStrip_sandwich]

/-- The result tuple `(pil_image, image_filename, image_base64, image_message)`
returned by every path of `generate_survey_image` and its helpers.  On the
failure paths the three image fields are `None`. -/
structure GenResult where
  image : Option PilImage
  filename : Option String
  base64Payload : Option String
  message : String
deriving Repr, DecidableEq

/-- Filename sanitization (source lines 184, 245):
`"".join(c for c in survey_name if c.isalnum() or c in (' ', '-', '_')).rstrip()`. -/
def safeName (survey_name : String) : String :=
  ⟨rstripChars (survey_name.data.filter fun c =>
    c.isAlphanum || c == ' ' || c == '-' || c == '_')⟩

/-- `safe_name.replace(' ', '_')` as used inside the filename f-strings
(source lines 186, 247). -/
def fileComponent (survey_name : String) : String :=
  ⟨(safeName survey_name).data.map fun c => if c == ' ' then '_' else c⟩

/-- First candidate part whose `inline_data` is not `None` (the `for part in
response.candidates[0].content.parts` loop, source lines 178-179). -/
def firstInlineData : List (Option PilImage) → Option PilImage
  | [] => none
  | some img :: _ => some img
  | none :: rest => firstInlineData rest

/-- The `try` body of `_try_new_gemini_api` (source lines 167-196):
`Except.error e` models an exception escaping the body with `str(e) = e`. -/
def try_new_gemini_api_body (w : World) (prompt survey_name : String)
    (save_filename : Option String) : Except String GenResult :=
  if w.clientSome = false then .error "Gemini client is not initialized"
  else
    match w.primary with
    | .raises e => .error e
    | .returns parts =>
      match firstInlineData parts with
      | some img =>
        let image_filename :=
          match save_filename with
          | some f => f
          | none => "survey_image_" ++ fileComponent survey_name ++ "_" ++
              tsString w.now ++ ".png"
        .ok ⟨some img, some image_filename, some (pngBase64 img),
          "AI-generated image created successfully"⟩
      | none => .ok ⟨none, none, none, "No image generated by Gemini API"⟩

/-- `_try_new_gemini_api` (source lines 166-199): the body plus the
`except Exception as e` handler that converts any raise into
`(None, None, None, "Gemini API error: " + str(e))`. -/
def try_new_gemini_api (w : World) (prompt survey_name : String)
    (save_filename : Option String) : GenResult :=
  match try_new_gemini_api_body w prompt survey_name save_filename with
  | .ok r => r
  | .error e => ⟨none, none, none, "Gemini API error: " ++ e⟩

/-- The bitmap drawn by the fallback renderer (source lines 204-240): a
1280x720 canvas titled with the survey name and specialty, with a
specialty-specific accent.  Pixel contents are abstracted into the tag. -/
def drawFallback (survey_name medical_specialty : String) : PilImage :=
  ⟨1280, 720, survey_name ++ " - " ++ medical_specialty⟩

/-- The `try` body of `_generate_fallback_image` (source lines 202-263):
`w.fallbackErr = some e` models any exception (drawing or disk write)
escaping the body with `str(e) = e`. -/
def generate_fallback_image_body (w : World) (survey_name medical_specialty : String)
    (save_filename : Option String) : Except String GenResult :=
  match w.fallbackErr with
  | some e => .error e
  | none =>
    let img := drawFallback survey_name medical_specialty
    let image_filename :=
      match save_filename with
      | some f => f
      | none => "fallback_" ++ fileComponent survey_name ++ "_" ++ tsString w.now ++ ".png"
    .ok ⟨some img, some image_filename, some (pngBase64 img),
      "Professional fallback image generated successfully."⟩

/-- `_generate_fallback_image` (source lines 201-267): the body plus the
`except Exception as e` handler returning `(None, None, None, str(e))`. -/
def generate_fallback_image (w : World) (survey_name medical_specialty : String)
    (save_filename : Option String) : GenResult :=
  match generate_fallback_image_body w survey_name medical_specialty save_filename with
  | .ok r => r
  | .error e => ⟨none, none, none, e⟩

/-- `generate_survey_image` (source lines 149-164): build the prompt, try
the remote API when `GEMINI_AVAILABLE and client is not None`, return its
result when it carries an image, otherwise fall through to the fallback
renderer. -/
def generate_survey_image (w : World) (survey_name medical_specialty tone image_style : String)
    (include_text : Bool) (save_filename : Option String) : GenResult :=
  let prompt := construct_image_prompt w survey_name medical_specialty tone image_style
    include_text
  if w.geminiAvailable && w.clientSome then
    let r := try_new_gemini_api w prompt survey_name save_filename
    if r.image.isSome then r
    else generate_fallback_image w survey_name medical_specialty save_filename
  else generate_fallback_image w survey_name medical_specialty save_filename

lemma strContains_intro {hay needle : String} (pre suf : List Char)
    (h : hay.data = pre ++ needle.data ++ suf) : strContains hay needle :=
  ⟨pre, suf, h.symm⟩

/-- C9: `construct_image_prompt` is pure and deterministic: its output is
byte-identical across any two ambient process states (in particular, no
clock reading leaks into the prompt), hence two calls with identical
arguments yield identical strings. -/
theorem claim_C9_prompt_pure (w1 w2 : World) (n sp t st : String) (it : Bool) :
    construct_image_prompt w1 n sp t st it = construct_image_prompt w2 n sp t st it := rfl

/-- C3: for every specialty string, the prompt contains the visual-elements
entry found by the case-insensitive lookup, which falls back to the
"general" entry when the lowered key is not registered; the lookup (and
hence the whole construction) is total over arbitrary strings.  The two
extra conjuncts record the case-insensitivity of a registered key and the
fallback of an unregistered one. -/
theorem claim_C3_specialty_elements (w : World) (n sp t st : String) (it : Bool) :
    strContains (construct_image_prompt w n sp t st it)
      ((specialty_elements.lookup (pyLower sp)).getD general_visual) ∧
    specialty_elements.lookup (pyLower "CaRdIoLoGy") =
      some "subtle heart imagery, ECG patterns, stethoscope elements, cardiovascular icons" ∧
    specialty_elements.lookup (pyLower "dermatology") = none := by
  refine ⟨?_, by decide, by decide⟩
  apply strContains_intro
    (hdr1.data.dropWhile Char.isWhitespace ++ sp.data ++ hdr2.data ++ n.data ++ hdr3.data ++
      sp.data ++ hdr4.data ++ t.data ++ hdr5.data ++ st.data ++ hdr6.data ++ sp.data ++
      hdr7.data ++ specialtyLead.data)
    (((style_instructions.lookup (pyLower st)).getD professionalBlock).data ++
      (textBlock it n).data ++ rstripChars footerLit.data)
  rw [construct_image_prompt_data]
  simp [List.append_assoc]

/-- C8: for every style string, the prompt contains the style block found
by the case-insensitive lookup, which falls back to the "professional"
block when the lowered key is not registered.  The extra conjuncts record
case-insensitivity of a registered key and the fallback of an
unregistered one. -/
theorem claim_C8_style_blocks (w : World) (n sp t st : String) (it : Bool) :
    strContains (construct_image_prompt w n sp t st it)
      ((style_instructions.lookup (pyLower st)).getD professionalBlock) ∧
    style_instructions.lookup (pyLower "INFOGRAPHIC") = some infographicBlock ∧
    style_instructions.lookup (pyLower "sketch") = none := by
  refine ⟨?_, by decide, by decide⟩
  apply strContains_intro
    (hdr1.data.dropWhile Char.isWhitespace ++ sp.data ++ hdr2.data ++ n.data ++ hdr3.data ++
      sp.data ++ hdr4.data ++ t.data ++ hdr5.data ++ st.data ++ hdr6.data ++ sp.data ++
      hdr7.data ++ specialtyLead.data ++
      ((specialty_elements.lookup (pyLower sp)).getD general_visual).data)
    ((textBlock it n).data ++ rstripChars footerLit.data)
  rw [construct_image_prompt_data]
  simp [List.append_assoc]

/-- C10: the composition/technical footer is a plain (non-f-string)
literal, so every prompt — for any arguments whatsoever — contains the
unsubstituted placeholder text `\x7bmedical_specialty\x7d` verbatim; the
infographic, medical-illustration and clean-modern style blocks (all plain
literals as well) each contain it too, and they are the blocks selected for
those three style keys. -/
theorem claim_C10_unsubstituted_placeholder (w : World) (n sp t st : String) (it : Bool) :
    strContains (construct_image_prompt w n sp t st it) "\x7bmedical_specialty\x7d" ∧
    strContains infographicBlock "\x7bmedical_specialty\x7d" ∧
    strContains medicalIllustrationBlock "\x7bmedical_specialty\x7d" ∧
    strContains cleanModernBlock "\x7bmedical_specialty\x7d" ∧
    style_instructions.lookup "infographic" = some infographicBlock ∧
    style_instructions.lookup "medical_illustration" = some medicalIllustrationBlock ∧
    style_instructions.lookup "clean_modern" = some cleanModernBlock := by
  refine ⟨?_, by decide, by decide, by decide, by decide, by decide, by decide⟩
  have h1 : ("\x7bmedical_specialty\x7d" : String).data <:+: rstripChars footerLit.data := by
    decide
  have h2 : rstripChars footerLit.data <:+: (construct_image_prompt w n sp t st it).data := by
    refine ⟨hdr1.data.dropWhile Char.isWhitespace ++ sp.data ++ hdr2.data ++ n.data ++
      hdr3.data ++ sp.data ++ hdr4.data ++ t.data ++ hdr5.data ++ st.data ++ hdr6.data ++
      sp.data ++ hdr7.data ++ specialtyLead.data ++
      ((specialty_elements.lookup (pyLower sp)).getD general_visual).data ++
      ((style_instructions.lookup (pyLower st)).getD professionalBlock).data ++
      (textBlock it n).data, [], ?_⟩
    rw [construct_image_prompt_data]
    simp [List.append_assoc]
  exact h1.trans h2

/-- C7: the prompts built with `include_text = false` and `include_text =
true` agree everywhere except that where the true-variant carries the
text-overlay block (whose main headline is exactly the survey name in
quotes), the false-variant instead carries the no-text directive — which
mentions no headline, no subtitle, and no text overlay requirements.  So
the false-prompt contains the explicit no-text-overlay directive, and the
true-prompt contains the headline instruction with the survey name. -/
theorem claim_C7_include_text (w : World) (n sp t st : String) :
    ∃ pre suf : List Char,
      (construct_image_prompt w n sp t st false).data = pre ++ noTextDirective.data ++ suf ∧
      (construct_image_prompt w n sp t st true).data =
        pre ++ (overlayPre ++ n ++ overlayPost).data ++ suf ∧
      strContains (construct_image_prompt w n sp t st true)
        ("Main headline: \"" ++ n ++ "\"") ∧
      strContains (construct_image_prompt w n sp t st false) noTextDirective ∧
      strContainsB noTextDirective "headline" = false ∧
      strContainsB noTextDirective "Subtitle" = false ∧
      strContainsB noTextDirective "TEXT OVERLAY" = false := by
  have e1 : overlayPre = "\n\nTEXT OVERLAY REQUIREMENTS:\n- " ++ "Main headline: \"" := by
    decide
  have e2 : overlayPost = "\"" ++ " (prominent, readable typography)\n- Subtitle: \"Healthcare Professional Survey\" or \"Medical Research Study\"\n- Call-to-action element: \"Share Your Expertise\" or \"Join the Research\"\n- Text must be easily readable against the background\n- Use professional, medical-appropriate fonts\n- Ensure text contrast meets accessibility standards\n" := by
    decide
  refine ⟨hdr1.data.dropWhile Char.isWhitespace ++ sp.data ++ hdr2.data ++ n.data ++ hdr3.data ++
      sp.data ++ hdr4.data ++ t.data ++ hdr5.data ++ st.data ++ hdr6.data ++ sp.data ++
      hdr7.data ++ specialtyLead.data ++
      ((specialty_elements.lookup (pyLower sp)).getD general_visual).data ++
      ((style_instructions.lookup (pyLower st)).getD professionalBlock).data,
    rstripChars footerLit.data, ?_, ?_, ?_, ?_, by decide, by decide, by decide⟩
  · rw [construct_image_prompt_data]
    simp [textBlock, List.append_assoc]
  · rw [construct_image_prompt_data]
    simp [textBlock, List.append_assoc]
  · apply strContains_intro
      (hdr1.data.dropWhile Char.isWhitespace ++ sp.data ++ hdr2.data ++ n.data ++ hdr3.data ++
        sp.data ++ hdr4.data ++ t.data ++ hdr5.data ++ st.data ++ hdr6.data ++ sp.data ++
        hdr7.data ++ specialtyLead.data ++
        ((specialty_elements.lookup (pyLower sp)).getD general_visual).data ++
        ((style_instructions.lookup (pyLower st)).getD professionalBlock).data ++
        ("\n\nTEXT OVERLAY REQUIREMENTS:\n- " : String).data)
      ((" (prominent, readable typography)\n- Subtitle: \"Healthcare Professional Survey\" or \"Medical Research Study\"\n- Call-to-action element: \"Share Your Expertise\" or \"Join the Research\"\n- Text must be easily readable against the background\n- Use professional, medical-appropriate fonts\n- Ensure text contrast meets accessibility standards\n" : String).data ++
        rstripChars footerLit.data)
    rw [construct_image_prompt_data]
    simp only [textBlock, if_true]
    rw [e1, e2]
    simp [List.append_assoc]
  · apply strContains_intro
      (hdr1.data.dropWhile Char.isWhitespace ++ sp.data ++ hdr2.data ++ n.data ++ hdr3.data ++
        sp.data ++ hdr4.data ++ t.data ++ hdr5.data ++ st.data ++ hdr6.data ++ sp.data ++
        hdr7.data ++ specialtyLead.data ++
        ((specialty_elements.lookup (pyLower sp)).getD general_visual).data ++
        ((style_instructions.lookup (pyLower st)).getD professionalBlock).data)
      (rstripChars footerLit.data)
    rw [construct_image_prompt_data]
    simp [textBlock, List.append_assoc]

lemma try_new_gemini_api_wellformed (w : World) (p n : String) (sf : Option String) :
    ((try_new_gemini_api w p n sf).image.isSome = true ∧
     (try_new_gemini_api w p n sf).filename.isSome = true ∧
     (try_new_gemini_api w p n sf).base64Payload.isSome = true) ∨
    ((try_new_gemini_api w p n sf).image = none ∧
     (try_new_gemini_api w p n sf).filename = none ∧
     (try_new_gemini_api w p n sf).base64Payload = none) := by
  unfold try_new_gemini_api try_new_gemini_api_body
  rcases w with ⟨g, c, pr, fe, now⟩
  cases c
  · simp
  · cases pr with
    | raises e => simp
    | returns parts =>
      cases h : firstInlineData parts <;> cases sf <;> simp [h]

lemma generate_fallback_image_wellformed (w : World) (n sp : String) (sf : Option String) :
    ((generate_fallback_image w n sp sf).image.isSome = true ∧
     (generate_fallback_image w n sp sf).filename.isSome = true ∧
     (generate_fallback_image w n sp sf).base64Payload.isSome = true) ∨
    ((generate_fallback_image w n sp sf).image = none ∧
     (generate_fallback_image w n sp sf).filename = none ∧
     (generate_fallback_image w n sp sf).base64Payload = none) := by
  unfold generate_fallback_image generate_fallback_image_body
  cases h : w.fallbackErr <;> cases sf <;> simp [h]

/-- C1: `generate_survey_image` is total over every ambient state and every
string input — each `try` in the source is paired with a catch-all
`except` (modelled by the `Except`-valued bodies and their handlers), so no
exception reaches the caller once the import-time credential check has
passed — and the returned four-tuple is always well-formed: either all
three image fields are present, or all three are `None` and only the
status message reports the failure. -/
theorem claim_C1_never_throws (w : World) (n sp t st : String) (it : Bool)
    (sf : Option String) :
    ((generate_survey_image w n sp t st it sf).image.isSome = true ∧
     (generate_survey_image w n sp t st it sf).filename.isSome = true ∧
     (generate_survey_image w n sp t st it sf).base64Payload.isSome = true) ∨
    ((generate_survey_image w n sp t st it sf).image = none ∧
     (generate_survey_image w n sp t st it sf).filename = none ∧
     (generate_survey_image w n sp t st it sf).base64Payload = none) := by
  unfold generate_survey_image
  by_cases hg : (w.geminiAvailable && w.clientSome) = true
  · simp only [hg, if_true]
    by_cases hi : (try_new_gemini_api w (construct_image_prompt w n sp t st it) n sf).image.isSome
    · simpa [hi] using try_new_gemini_api_wellformed w
        (construct_image_prompt w n sp t st it) n sf
    · simpa [hi] using generate_fallback_image_wellformed w n sp sf
  · simp only [hg, if_false, Bool.false_eq_true]
    exact generate_fallback_image_wellformed w n sp sf

lemma generate_fallback_image_primary_irrelevant (w : World) (po : PrimaryOutcome)
    (n sp : String) (sf : Option String) :
    generate_fallback_image { w with primary := po } n sp sf =
      generate_fallback_image w n sp sf := rfl

lemma try_new_gemini_api_fallback_irrelevant (w : World) (fe : Option String) (p n : String)
    (sf : Option String) :
    try_new_gemini_api { w with fallbackErr := fe } p n sf = try_new_gemini_api w p n sf := rfl

/-- C2: the orchestration state machine of `generate_survey_image`.
First conjunct: when the remote client is unavailable (`GEMINI_AVAILABLE`
false or `client` `None`) the primary attempt is skipped entirely — the
result is the fallback result, whatever the remote outcome would have
been.  Second conjunct: when the primary attempt returns an absent image,
the fallback renderer is invoked.  Third conjunct: when the primary
attempt returns a present image, its result is returned and the fallback
renderer is never invoked — the result is unchanged under any fallback
outcome. -/
theorem claim_C2_state_machine (w : World) (n sp t st : String) (it : Bool)
    (sf : Option String) :
    ((w.geminiAvailable = false ∨ w.clientSome = false) →
      ∀ po : PrimaryOutcome,
        generate_survey_image { w with primary := po } n sp t st it sf =
          generate_fallback_image w n sp sf) ∧
    (w.geminiAvailable = true → w.clientSome = true →
      (try_new_gemini_api w (construct_image_prompt w n sp t st it) n sf).image = none →
      generate_survey_image w n sp t st it sf = generate_fallback_image w n sp sf) ∧
    (w.geminiAvailable = true → w.clientSome = true →
      ∀ img : PilImage,
        (try_new_gemini_api w (construct_image_prompt w n sp t st it) n sf).image = some img →
        ∀ fe : Option String,
          generate_survey_image { w with fallbackErr := fe } n sp t st it sf =
            try_new_gemini_api w (construct_image_prompt w n sp t st it) n sf) := by
  refine ⟨?_, ?_, ?_⟩
  · intro h po
    have hb : (({ w with primary := po } : World).geminiAvailable &&
        ({ w with primary := po } : World).clientSome) = false := by
      rcases h with h | h <;> simp [h]
    rw [generate_survey_image, hb]
    simp only [Bool.false_eq_true, if_false]
    exact generate_fallback_image_primary_irrelevant w po n sp sf
  · intro hg hc hi
    rw [generate_survey_image]
    simp only [hg, hc, Bool.and_self, if_true, hi, Option.isSome_none,
      Bool.false_eq_true, if_false]
  · intro hg hc img hi fe
    have hC9 : construct_image_prompt { w with fallbackErr := fe } n sp t st it =
        construct_image_prompt w n sp t st it := rfl
    rw [generate_survey_image, hC9]
    have hb : (({ w with fallbackErr := fe } : World).geminiAvailable &&
        ({ w with fallbackErr := fe } : World).clientSome) = true := by simp [hg, hc]
    rw [hb]
    simp only [if_true]
    rw [try_new_gemini_api_fallback_irrelevant w fe, hi]
    simp

/-- Witness for C2 at three concrete worlds: an unavailable client, an
available client whose remote call yields no image part, and an available
client whose remote call yields an image. -/
theorem claim_C2_state_machine_witness :
    (generate_survey_image
        ⟨false, false, .raises "ignored", none, ⟨2025, 1, 1, 0, 0, 0, 0⟩⟩
        "S" "general" "pro" "professional" true none =
      generate_fallback_image
        ⟨false, false, .raises "x", none, ⟨2025, 1, 1, 0, 0, 0, 0⟩⟩ "S" "general" none) ∧
    (generate_survey_image ⟨true, true, .returns [none], none, ⟨2025, 1, 1, 0, 0, 0, 0⟩⟩
        "S" "general" "pro" "professional" true none =
      generate_fallback_image ⟨true, true, .returns [none], none, ⟨2025, 1, 1, 0, 0, 0, 0⟩⟩
        "S" "general" none) ∧
    (generate_survey_image
        ⟨true, true, .returns [some ⟨2, 2, "i"⟩], some "boom", ⟨2025, 1, 1, 0, 0, 0, 0⟩⟩
        "S" "general" "pro" "professional" true none =
      try_new_gemini_api ⟨true, true, .returns [some ⟨2, 2, "i"⟩], none, ⟨2025, 1, 1, 0, 0, 0, 0⟩⟩
        (construct_image_prompt ⟨true, true, .returns [some ⟨2, 2, "i"⟩], none,
          ⟨2025, 1, 1, 0, 0, 0, 0⟩⟩ "S" "general" "pro" "professional" true)
        "S" none) :=
  ⟨(claim_C2_state_machine ⟨false, false, .raises "x", none, ⟨2025, 1, 1, 0, 0, 0, 0⟩⟩
      "S" "general" "pro" "professional" true none).1 (Or.inl rfl) (.raises "ignored"),
   (claim_C2_state_machine ⟨true, true, .returns [none], none, ⟨2025, 1, 1, 0, 0, 0, 0⟩⟩
      "S" "general" "pro" "professional" true none).2.1 rfl rfl rfl,
   (claim_C2_state_machine ⟨true, true, .returns [some ⟨2, 2, "i"⟩], none,
      ⟨2025, 1, 1, 0, 0, 0, 0⟩⟩ "S" "general" "pro" "professional" true none).2.2 rfl rfl
      ⟨2, 2, "i"⟩ rfl (some "boom")⟩

/-- C4 counterexample: when the remote call raises and the fallback body
raises an exception whose `str(e)` is the empty string, the result has all
image fields `None` but its status message is the empty string — so the
claim's requirement that the message be non-empty fails at this input. -/
theorem claim_C4_counterexample :
    generate_survey_image
        ⟨true, true, .raises "remote down", some "", ⟨2025, 1, 1, 0, 0, 0, 0⟩⟩
        "Heart Study" "cardiology" "professional" "professional" true none =
      ⟨none, none, none, ""⟩ ∧
    (generate_survey_image
        ⟨true, true, .raises "remote down", some "", ⟨2025, 1, 1, 0, 0, 0, 0⟩⟩
        "Heart Study" "cardiology" "professional" "professional" true none).message = "" :=
  ⟨rfl, rfl⟩

/-- C4 (amended): when the primary remote call raises and the fallback
rendering also raises with error description `e`, the result has image,
filename and base64 fields all `None` and its status message is exactly
`e` — it contains the underlying error description, and it is non-empty
whenever that description is non-empty. -/
theorem claim_C4_total_failure (w : World) (n sp t st : String) (it : Bool)
    (sf : Option String) (pe e : String) (hg : w.geminiAvailable = true)
    (hc : w.clientSome = true) (hp : w.primary = .raises pe) (hf : w.fallbackErr = some e) :
    generate_survey_image w n sp t st it sf = ⟨none, none, none, e⟩ ∧
    strContains (generate_survey_image w n sp t st it sf).message e ∧
    (e ≠ "" → (generate_survey_image w n sp t st it sf).message ≠ "") := by
  have hmain : generate_survey_image w n sp t st it sf = ⟨none, none, none, e⟩ := by
    rw [generate_survey_image]
    have hb : (w.geminiAvailable && w.clientSome) = true := by simp [hg, hc]
    rw [hb]
    simp only [if_true]
    rw [show try_new_gemini_api w (construct_image_prompt w n sp t st it) n sf =
        ⟨none, none, none, "Gemini API error: " ++ pe⟩ from by
      rw [try_new_gemini_api, try_new_gemini_api_body.eq_def, hc, hp]
      simp]
    simp only [Option.isSome_none, Bool.false_eq_true, if_false]
    rw [generate_fallback_image, generate_fallback_image_body.eq_def, hf]
  refine ⟨hmain, ?_, ?_⟩
  · rw [hmain]
    exact List.infix_refl e.data
  · intro hne
    rw [hmain]
    exact hne

/-- Witness for the amended C4 at a concrete world with a non-empty
fallback error description. -/
theorem claim_C4_total_failure_witness :
    generate_survey_image
        ⟨true, true, .raises "boom", some "disk full", ⟨2025, 1, 1, 0, 0, 0, 0⟩⟩
        "S" "general" "pro" "professional" true none = ⟨none, none, none, "disk full"⟩ ∧
    strContains (generate_survey_image
        ⟨true, true, .raises "boom", some "disk full", ⟨2025, 1, 1, 0, 0, 0, 0⟩⟩
        "S" "general" "pro" "professional" true none).message "disk full" ∧
    ("disk full" ≠ "" → (generate_survey_image
        ⟨true, true, .raises "boom", some "disk full", ⟨2025, 1, 1, 0, 0, 0, 0⟩⟩
        "S" "general" "pro" "professional" true none).message ≠ "") :=
  claim_C4_total_failure ⟨true, true, .raises "boom", some "disk full", ⟨2025, 1, 1, 0, 0, 0, 0⟩⟩
    "S" "general" "pro" "professional" true none "boom" "disk full" rfl rfl rfl rfl

lemma mem_of_mem_rstripChars {c : Char} {l : List Char} (h : c ∈ rstripChars l) : c ∈ l := by
  unfold rstripChars at h
  rw [List.mem_reverse] at h
  have := (@List.dropWhile_suffix _ l.reverse Char.isWhitespace).sublist.mem h
  rwa [List.mem_reverse] at this

/-- C5: filename sanitization.  The survey name `"Heart Study: 2025!"`
yields exactly `"Heart_Study_2025"` (colon and exclamation stripped,
spaces replaced by underscores), and for every survey name the derived
component consists only of alphanumerics, hyphens and underscores —
spaces are kept by the filter but replaced by underscores, and trailing
whitespace is trimmed before the replacement. -/
theorem claim_C5_sanitization :
    fileComponent "Heart Study: 2025!" = "Heart_Study_2025" ∧
    ∀ s : String, ∀ c : Char, c ∈ (fileComponent s).data →
      (c.isAlphanum = true ∨ c = '-' ∨ c = '_') := by
  refine ⟨by decide, ?_⟩
  intro s c hc
  have hc2 : c ∈ (safeName s).data.map (fun c => if c == ' ' then '_' else c) := hc
  obtain ⟨c0, hc0, hmap⟩ := List.mem_map.1 hc2
  have hc1 : c0 ∈ s.data.filter
      (fun c => c.isAlphanum || c == ' ' || c == '-' || c == '_') :=
    mem_of_mem_rstripChars hc0
  have hpred := List.of_mem_filter hc1
  by_cases h0 : c0 = ' '
  · right; right
    rw [← hmap, h0]
    rfl
  · have : (if c0 == ' ' then '_' else c0) = c0 := by simp [h0]
    rw [this] at hmap
    subst hmap
    simp only [Bool.or_eq_true, beq_iff_eq] at hpred
    rcases hpred with ((ha | hs) | hh) | hu
    · exact Or.inl ha
    · exact absurd hs h0
    · exact Or.inr (Or.inl hh)
    · exact Or.inr (Or.inr hu)

/-- Witness for C5's universal part at a concrete survey name and character. -/
theorem claim_C5_sanitization_witness :
    '_' ∈ (fileComponent "a b!").data ∧
      ('_'.isAlphanum = true ∨ '_' = '-' ∨ '_' = '_') :=
  ⟨by decide, claim_C5_sanitization.2 "a b!" '_' (by decide)⟩

/-- C6: with no desired filename supplied, a successful primary generation
derives `survey_image_{sanitizedName}_{timestamp}.png` and a successful
fallback derives `fallback_{sanitizedName}_{timestamp}.png`, where the
timestamp string is `strftime("%Y%m%d_%H%M%S")` of the current time — it
has second-level resolution: it depends only on the fields down to
seconds (the last conjunct lets the microsecond fields differ). -/
theorem claim_C6_filename_patterns (w : World) (n sp t st : String) (it : Bool)
    (parts : List (Option PilImage)) (img : PilImage)
    (hg : w.geminiAvailable = true) (hc : w.clientSome = true)
    (hp : w.primary = .returns parts) (hi : firstInlineData parts = some img)
    (w2 : World) (n2 sp2 : String) (hf : w2.fallbackErr = none)
    (t1 t2 : Timestamp) (hy : t1.year = t2.year) (hmo : t1.month = t2.month)
    (hd : t1.day = t2.day) (hh : t1.hour = t2.hour) (hmi : t1.minute = t2.minute)
    (hs : t1.second = t2.second) :
    (generate_survey_image w n sp t st it none).filename =
      some ("survey_image_" ++ fileComponent n ++ "_" ++ tsString w.now ++ ".png") ∧
    (generate_fallback_image w2 n2 sp2 none).filename =
      some ("fallback_" ++ fileComponent n2 ++ "_" ++ tsString w2.now ++ ".png") ∧
    tsString t1 = tsString t2 := by
  refine ⟨?_, ?_, ?_⟩
  · have htry : try_new_gemini_api w (construct_image_prompt w n sp t st it) n none =
        ⟨some img,
          some ("survey_image_" ++ fileComponent n ++ "_" ++ tsString w.now ++ ".png"),
          some (pngBase64 img), "AI-generated image created successfully"⟩ := by
      rw [try_new_gemini_api, try_new_gemini_api_body.eq_def, hc, hp]
      simp [hi]
    rw [generate_survey_image]
    have hb : (w.geminiAvailable && w.clientSome) = true := by simp [hg, hc]
    rw [hb]
    simp only [if_true]
    rw [htry]
    simp
  · rw [generate_fallback_image, generate_fallback_image_body.eq_def, hf]
  · unfold tsString
    rw [hy, hmo, hd, hh, hmi, hs]

/-- Witness for C6 at a concrete successful primary world, a concrete
successful fallback world, and two timestamps equal down to seconds but
with different microsecond fields. -/
theorem claim_C6_filename_patterns_witness :
    (generate_survey_image
        ⟨true, true, .returns [some ⟨3, 3, "img"⟩], none, ⟨2025, 10, 12, 9, 30, 5, 1⟩⟩
        "Heart Study: 2025!" "cardiology" "pro" "professional" true none).filename =
      some ("survey_image_" ++ fileComponent "Heart Study: 2025!" ++ "_" ++
        tsString (⟨true, true, .returns [some ⟨3, 3, "img"⟩], none,
          ⟨2025, 10, 12, 9, 30, 5, 1⟩⟩ : World).now ++ ".png") ∧
    (generate_fallback_image
        ⟨false, false, .raises "x", none, ⟨2025, 10, 12, 9, 30, 6, 2⟩⟩
        "My Survey" "general" none).filename =
      some ("fallback_" ++ fileComponent "My Survey" ++ "_" ++
        tsString (⟨false, false, .raises "x", none,
          ⟨2025, 10, 12, 9, 30, 6, 2⟩⟩ : World).now ++ ".png") ∧
    tsString ⟨2025, 10, 12, 9, 30, 5, 111⟩ = tsString ⟨2025, 10, 12, 9, 30, 5, 999⟩ :=
  claim_C6_filename_patterns
    ⟨true, true, .returns [some ⟨3, 3, "img"⟩], none, ⟨2025, 10, 12, 9, 30, 5, 1⟩⟩
    "Heart Study: 2025!" "cardiology" "pro" "professional" true
    [some ⟨3, 3, "img"⟩] ⟨3, 3, "img"⟩ rfl rfl rfl rfl
    ⟨false, false, .raises "x", none, ⟨2025, 10, 12, 9, 30, 6, 2⟩⟩
    "My Survey" "general" rfl
    ⟨2025, 10, 12, 9, 30, 5, 111⟩ ⟨2025, 10, 12, 9, 30, 5, 999⟩ rfl rfl rfl rfl rfl rfl
